import Mathlib

/-!
Verification of the RAG backend (`src/documents.py`, `src/main.py`).

The FastAPI endpoint `rag_endpoint` is embedded as a pure function over the
request, parameterised by the two external collaborators (retrieval over the
FAISS vector store, and the generation LLM), each of which may fail; the
embedding additionally records the sequence of external calls made, so that
claims about *which* external calls happen (and in what order) are statable.
-/

namespace Rag

/-- The corpus from `src/documents.py`.  In Python, adjacent string literals
with no comma between them are concatenated into a single list entry; the
`++` below mirror exactly the places where a comma is missing in the source. -/
def DOCUMENTS : List String :=
  [ "Artificial Intelligence (AI) is the simulation of human intelligence in machines, enabling tasks like reasoning and learning.",
    "Retrieval-Augmented Generation (RAG) combines retrieval of relevant documents with a language model to generate accurate answers.",
    "Machine learning is a subset of AI that focuses on training models to make predictions based on data."
      ++ "Natural Language Processing (NLP) is the ability of computers to understand and manipulate human language.",
    "Deep learning is a subset of machine learning that uses neural networks to learn and make predictions.",
    "Computer vision is the ability of computers to understand and interpret visual information.",
    "Generative AI is the use of AI to create new content, such as art or music.",
    "Chatbots are AI-powered conversational interfaces that can simulate human conversation.",
    "Robotics is the study and design of machines that can perform tasks that typically require human intelligence.",
    "Augmented Reality (AR) is a technology that overlays digital information onto the real world."
      ++ "Virtual Reality (VR) is a technology that creates a simulated environment that can be experienced fully immersed."
      ++ "Blockchain is a distributed ledger technology that enables secure and transparent transactions."
      ++ "Cybersecurity is the practice of protecting systems, networks, and data from digital attacks."
      ++ "Cloud computing is the delivery of computing services over the internet, allowing for scalable and flexible resources."
      ++ "Big data refers to the large volume of data that can be analyzed for insights and decision-making."
      ++ "Internet of Things (IoT) is the network of physical devices connected to the internet, enabling data exchange and automation." ]

/-- The sixteen sentence string literals as they are written (one per line) in
`src/documents.py`, before Python merges the comma-less adjacent ones. -/
def sentenceLiterals : List String :=
  [ "Artificial Intelligence (AI) is the simulation of human intelligence in machines, enabling tasks like reasoning and learning.",
    "Retrieval-Augmented Generation (RAG) combines retrieval of relevant documents with a language model to generate accurate answers.",
    "Machine learning is a subset of AI that focuses on training models to make predictions based on data.",
    "Natural Language Processing (NLP) is the ability of computers to understand and manipulate human language.",
    "Deep learning is a subset of machine learning that uses neural networks to learn and make predictions.",
    "Computer vision is the ability of computers to understand and interpret visual information.",
    "Generative AI is the use of AI to create new content, such as art or music.",
    "Chatbots are AI-powered conversational interfaces that can simulate human conversation.",
    "Robotics is the study and design of machines that can perform tasks that typically require human intelligence.",
    "Augmented Reality (AR) is a technology that overlays digital information onto the real world.",
    "Virtual Reality (VR) is a technology that creates a simulated environment that can be experienced fully immersed.",
    "Blockchain is a distributed ledger technology that enables secure and transparent transactions.",
    "Cybersecurity is the practice of protecting systems, networks, and data from digital attacks.",
    "Cloud computing is the delivery of computing services over the internet, allowing for scalable and flexible resources.",
    "Big data refers to the large volume of data that can be analyzed for insights and decision-making.",
    "Internet of Things (IoT) is the network of physical devices connected to the internet, enabling data exchange and automation." ]

/-- `class Message(BaseModel)` from `src/main.py`: `role` is a plain `str`
(the comment says "user" or "assistant" but nothing enforces it). -/
structure Message where
  role : String
  content : String
deriving Repr, DecidableEq

/-- `class ChatRequest(BaseModel)`: the full conversation history. -/
structure ChatRequest where
  messages : List Message
deriving Repr, DecidableEq

/-- `class AnswerResponse(BaseModel)`. -/
structure AnswerResponse where
  answer : String
  sources : List String
deriving Repr, DecidableEq

/-- Outcome of one request: a successful `AnswerResponse`, or an
`HTTPException(status_code, detail)`. -/
inductive RagResult where
  | ok (resp : AnswerResponse)
  | error (status : Nat) (detail : String)
deriving Repr, DecidableEq

/-- One call to an external collaborator, as observed from `rag_endpoint`:
the FAISS `similarity_search` (which embeds the query and searches the index)
or the LLM `invoke`. -/
inductive CallEvent where
  | retrieveCall (query : String) (k : Nat)
  | generateCall (prompt : String)
deriving Repr, DecidableEq

/-- Python's `str.strip()`: the string with leading and trailing whitespace
removed. -/
def strip (s : String) : String :=
  ⟨((s.data.dropWhile Char.isWhitespace).reverse.dropWhile Char.isWhitespace).reverse⟩

/-- `request.messages[-1].content` (defaulting to `""` on an empty history,
which the endpoint rejects before ever reading it). -/
def lastContent (req : ChatRequest) : String :=
  match req.messages.getLast? with
  | some m => m.content
  | none => ""

/-- Lines 64-65 of `src/main.py`: the prompt built from the full history and
the retrieved passage texts. -/
def build_prompt (messages : List Message) (docs : List String) : String :=
  "History:\n" ++ String.intercalate "\n" (messages.map fun m => m.role ++ ": " ++ m.content)
    ++ "\nContext: " ++ String.intercalate "\n" docs
    ++ "\nAssistant: Respond concisely based on the history and context:"

/-- `rag_endpoint` from `src/main.py`, parameterised by the two external
collaborators.  `retrieve q k` stands for `vectorstore.similarity_search(q, k)`
projected to the documents' `page_content`; `generate p` stands for
`llm.invoke(p)`.  Each returns `Except String _`, the `String` being the
internal exception detail swallowed by the bare `except` clause.  The second
component of the result is the list of external calls issued, in order. -/
def rag_endpoint (retrieve : String → Nat → Except String (List String))
    (generate : String → Except String String)
    (req : ChatRequest) : RagResult × List CallEvent :=
  if req.messages = [] ∨ strip (lastContent req) = "" then
    (.error 400 "Last message cannot be empty", [])
  else
    match retrieve (lastContent req) 2 with
    | .error _ =>
      (.error 500 "RAG processing failed", [.retrieveCall (lastContent req) 2])
    | .ok docs =>
      match generate (build_prompt req.messages docs) with
      | .error _ =>
        (.error 500 "RAG processing failed",
          [.retrieveCall (lastContent req) 2,
            .generateCall (build_prompt req.messages docs)])
      | .ok answer =>
        (.ok { answer := strip answer, sources := docs },
          [.retrieveCall (lastContent req) 2,
            .generateCall (build_prompt req.messages docs)])

/-- `s` contains the strings `ts`, in order: `s` can be cut into alternating
filler and the members of `ts`, left to right. -/
inductive ContainsInOrder : String → List String → Prop
  | nil (s : String) : ContainsInOrder s []
  | cons (s pre t rest : String) (ts : List String) :
      s = pre ++ t ++ rest → ContainsInOrder rest ts → ContainsInOrder s (t :: ts)

/-- Modelled from the spec: the FAISS vector store's similarity metric is not
in `src/` (only its call site, `src/main.py` line 59, is); spec section 4.1
fixes the contract to "cosine or L2-equivalent".  Squared L2 distance between
two embedding vectors, over ℚ. -/
def sqDist (u v : List ℚ) : ℚ :=
  ((u.zip v).map fun p => (p.1 - p.2) ^ 2).sum

/-- Similarity of a passage vector to the query vector: higher is closer
(negated squared L2 distance). -/
def sim (q v : List ℚ) : ℚ := -(sqDist q v)

/-- Retrieval rank order on (corpus index, similarity) pairs: higher
similarity first, ties broken by lower corpus index (spec section 4.1). -/
def simRank (a b : Nat × ℚ) : Prop :=
  b.2 < a.2 ∨ (a.2 = b.2 ∧ a.1 ≤ b.1)

instance : DecidableRel simRank := fun a b => by
  unfold simRank; infer_instance

instance : IsTotal (Nat × ℚ) simRank where
  total a b := by
    unfold simRank
    rcases lt_trichotomy a.2 b.2 with h | h | h
    · exact Or.inr (Or.inl h)
    · rcases Nat.le_total a.1 b.1 with h1 | h1
      · exact Or.inl (Or.inr ⟨h, h1⟩)
      · exact Or.inr (Or.inr ⟨h.symm, h1⟩)
    · exact Or.inl (Or.inl h)

instance : IsTrans (Nat × ℚ) simRank where
  trans a b c hab hbc := by
    unfold simRank at *
    rcases hab with hab | ⟨hab, hab1⟩
    · rcases hbc with hbc | ⟨hbc, _⟩
      · exact Or.inl (hbc.trans hab)
      · exact Or.inl (hbc ▸ hab)
    · rcases hbc with hbc | ⟨hbc, hbc1⟩
      · exact Or.inl (by rw [hab]; exact hbc)
      · exact Or.inr ⟨hab.trans hbc, hab1.trans hbc1⟩

/-- Modelled from the spec: `VectorIndex.search` (spec section 4.1) — FAISS's
implementation is not in `src/`.  Scores every corpus vector against the
query, sorts by descending similarity with ties broken by lower corpus index,
and returns the first `k` (so `k` is clamped to the corpus size).  Results
are (corpus index, similarity) pairs. -/
def search (corpus : List (List ℚ)) (q : List ℚ) (k : Nat) : List (Nat × ℚ) :=
  (List.insertionSort simRank (corpus.enum.map fun p => (p.1, sim q p.2))).take k

/-- Modelled from the spec: the retrieval step `vectorstore.similarity_search`
as used at `src/main.py` line 59 — embed the query, search the index, return
the `page_content` texts of the ranked passages. -/
def faissRetrieve (corpus : List (String × List ℚ)) (embed : String → List ℚ)
    (q : String) (k : Nat) : Except String (List String) :=
  .ok ((search (corpus.map Prod.snd) (embed q) k).filterMap
    fun p => (corpus.get? p.1).map Prod.fst)

/-- C9: Python's adjacent-string-literal concatenation merges corpus entries:
the corpus the index is built from has 9 passages, while 16 sentence literals
are written in `src/documents.py`; the third entry is two sentences merged
with no separator, and the ninth is seven; the NLP sentence literal does not
occur as a corpus entry of its own. -/
theorem documents_merged_literals :
    DOCUMENTS.length = 9 ∧ sentenceLiterals.length = 16 ∧
    DOCUMENTS.get? 2 =
      some ((sentenceLiterals.get? 2).getD "" ++ (sentenceLiterals.get? 3).getD "") ∧
    DOCUMENTS.get? 8 =
      some ((sentenceLiterals.get? 9).getD "" ++ (sentenceLiterals.get? 10).getD ""
        ++ (sentenceLiterals.get? 11).getD "" ++ (sentenceLiterals.get? 12).getD ""
        ++ (sentenceLiterals.get? 13).getD "" ++ (sentenceLiterals.get? 14).getD ""
        ++ (sentenceLiterals.get? 15).getD "") ∧
    ¬ (sentenceLiterals.get? 3).getD "" ∈ DOCUMENTS := by
  refine ⟨rfl, rfl, rfl, rfl, ?_⟩
  decide

theorem containsInOrder_append_right {s tail : String} {ts : List String}
    (h : ContainsInOrder s ts) : ContainsInOrder (s ++ tail) ts := by
  induction h generalizing tail with
  | nil s => exact .nil _
  | cons s pre t rest ts heq hrest ih =>
    exact .cons _ pre t (rest ++ tail) ts
      (by rw [heq, String.append_assoc (pre ++ t) rest tail]) ih

theorem containsInOrder_append_left {pre2 s : String} {ts : List String}
    (h : ContainsInOrder s ts) : ContainsInOrder (pre2 ++ s) ts := by
  cases h with
  | nil => exact .nil _
  | cons s pre t rest ts heq hrest =>
    refine .cons _ (pre2 ++ pre) t rest ts ?_ hrest
    rw [heq, ← String.append_assoc, ← String.append_assoc]

theorem intercalate_go_decomp (sep : String) :
    ∀ (as : List String) (acc : String), ∃ suffix,
      String.intercalate.go acc sep as = acc ++ suffix ∧ ContainsInOrder suffix as := by
  intro as
  induction as with
  | nil =>
    intro acc
    exact ⟨"", (String.append_empty acc).symm, .nil _⟩
  | cons a as ih =>
    intro acc
    obtain ⟨suf, hgo, hcio⟩ := ih (acc ++ sep ++ a)
    refine ⟨sep ++ a ++ suf, ?_, .cons _ sep a suf as rfl hcio⟩
    show String.intercalate.go acc sep (a :: as) = acc ++ (sep ++ a ++ suf)
    rw [show String.intercalate.go acc sep (a :: as)
        = String.intercalate.go (acc ++ sep ++ a) sep as from rfl, hgo,
      String.append_assoc (acc ++ sep) a suf, String.append_assoc acc sep (a ++ suf),
      ← String.append_assoc sep a suf]

theorem containsInOrder_intercalate (sep : String) (parts : List String) :
    ContainsInOrder (String.intercalate sep parts) parts := by
  cases parts with
  | nil => exact .nil _
  | cons a as =>
    obtain ⟨suf, hgo, hcio⟩ := intercalate_go_decomp sep as a
    rw [show String.intercalate sep (a :: as) = String.intercalate.go a sep as from rfl, hgo]
    exact .cons _ "" a suf as rfl hcio

/-- Helper: on any successful run, the retrieval step produced exactly the
response's `sources`. -/
theorem rag_ok_retrieve (retrieve : String → Nat → Except String (List String))
    (generate : String → Except String String) (req : ChatRequest)
    (resp : AnswerResponse) (trace : List CallEvent)
    (h : rag_endpoint retrieve generate req = (.ok resp, trace)) :
    retrieve (lastContent req) 2 = .ok resp.sources := by
  unfold rag_endpoint at h
  split at h
  · injection h with h1 h2
    exact RagResult.noConfusion h1
  · cases hr : retrieve (lastContent req) 2 with
    | error e =>
      rw [hr] at h
      dsimp only at h
      injection h with h1 h2
      exact RagResult.noConfusion h1
    | ok docs =>
      rw [hr] at h
      dsimp only at h
      cases hg : generate (build_prompt req.messages docs) with
      | error e =>
        rw [hg] at h
        dsimp only at h
        injection h with h1 h2
        exact RagResult.noConfusion h1
      | ok ans =>
        rw [hg] at h
        dsimp only at h
        injection h with h1 h2
        injection h1 with h1
        rw [← h1]

/-- C1: for every successful request, `sources` equals exactly the texts of
the passages returned by the retrieval step, in retrieval order — generation
output never adds, removes, filters, or reorders entries (`src/main.py`
lines 59 and 69-71). -/
theorem sources_eq_retrieved (retrieve : String → Nat → Except String (List String))
    (generate : String → Except String String) (req : ChatRequest)
    (resp : AnswerResponse) (trace : List CallEvent)
    (h : rag_endpoint retrieve generate req = (.ok resp, trace)) :
    retrieve (lastContent req) 2 = .ok resp.sources :=
  rag_ok_retrieve retrieve generate req resp trace h

/-- C1 witness: a concrete successful run whose `sources` are the retrieved
texts. -/
theorem sources_eq_retrieved_witness :
    rag_endpoint (fun _ _ => .ok ["a", "b"]) (fun _ => .ok "ans")
        ⟨[⟨"user", "hi"⟩]⟩ =
      (.ok ⟨"ans", ["a", "b"]⟩,
        [.retrieveCall "hi" 2, .generateCall (build_prompt [⟨"user", "hi"⟩] ["a", "b"])]) ∧
    (Except.ok ["a", "b"] : Except String (List String)) =
      .ok (AnswerResponse.sources ⟨"ans", ["a", "b"]⟩) := by
  constructor
  · rfl
  · exact sources_eq_retrieved (fun _ _ => .ok ["a", "b"]) (fun _ => .ok "ans")
      ⟨[⟨"user", "hi"⟩]⟩ ⟨"ans", ["a", "b"]⟩
      [.retrieveCall "hi" 2, .generateCall (build_prompt [⟨"user", "hi"⟩] ["a", "b"])]
      (by rfl)

/-- C2 counterexample: on the empty-messages request the service rejects with
detail "Last message cannot be empty" (capital L), not the claimed exact
message "last message cannot be empty". -/
theorem invalid_request_detail_capitalized :
    (rag_endpoint (fun _ _ => .ok []) (fun _ => .ok "") ⟨[]⟩).1 =
      RagResult.error 400 "Last message cannot be empty" ∧
    "Last message cannot be empty" ≠ "last message cannot be empty" := by
  constructor
  · rfl
  · decide

/-- C2 (amended): every request with empty `messages` or whitespace-only last
content fails with HTTP 400 and detail "Last message cannot be empty", with no
external call made (empty call trace) — before any embedding, search, or
generation. -/
theorem invalid_request_rejected_before_calls
    (retrieve : String → Nat → Except String (List String))
    (generate : String → Except String String) (req : ChatRequest)
    (h : req.messages = [] ∨ strip (lastContent req) = "") :
    rag_endpoint retrieve generate req =
      (.error 400 "Last message cannot be empty", []) := by
  unfold rag_endpoint
  rw [if_pos h]

/-- C2 witness: the empty request is rejected with no external call. -/
theorem invalid_request_rejected_before_calls_witness :
    ((⟨[]⟩ : ChatRequest).messages = [] ∨ strip (lastContent ⟨[]⟩) = "") ∧
    rag_endpoint (fun _ _ => .ok ["a"]) (fun _ => .ok "x") ⟨[]⟩ =
      (.error 400 "Last message cannot be empty", []) :=
  ⟨Or.inl rfl,
    invalid_request_rejected_before_calls (fun _ _ => .ok ["a"]) (fun _ => .ok "x")
      ⟨[]⟩ (Or.inl rfl)⟩

/-- C3: for every request passing validation, a retrieval failure — and a
generation failure after a successful retrieval — each yields the whole
result being the single opaque HTTP 500 with the stable detail "RAG
processing failed", whatever the internal exception's detail string was, so
no partial answer or retrieved context is ever returned on a failing path;
conversely, every error outcome on a validated request carries exactly that
stable status and detail (`src/main.py` lines 57-74). -/
theorem pipeline_failure_opaque
    (retrieve : String → Nat → Except String (List String))
    (generate : String → Except String String) (req : ChatRequest)
    (h : ¬ (req.messages = [] ∨ strip (lastContent req) = "")) :
    (∀ e, retrieve (lastContent req) 2 = .error e →
      rag_endpoint retrieve generate req =
        (.error 500 "RAG processing failed", [.retrieveCall (lastContent req) 2])) ∧
    (∀ docs e, retrieve (lastContent req) 2 = .ok docs →
      generate (build_prompt req.messages docs) = .error e →
      rag_endpoint retrieve generate req =
        (.error 500 "RAG processing failed",
          [.retrieveCall (lastContent req) 2,
            .generateCall (build_prompt req.messages docs)])) ∧
    (∀ s d, (rag_endpoint retrieve generate req).1 = .error s d →
      s = 500 ∧ d = "RAG processing failed") := by
  refine ⟨?_, ?_, ?_⟩
  · intro e he
    unfold rag_endpoint
    rw [if_neg h, he]
  · intro docs e hr hg
    unfold rag_endpoint
    rw [if_neg h, hr]
    dsimp only
    rw [hg]
  · intro s d hsd
    unfold rag_endpoint at hsd
    rw [if_neg h] at hsd
    cases hr : retrieve (lastContent req) 2 with
    | error e =>
      rw [hr] at hsd
      dsimp only at hsd
      injection hsd with h1 h2
      exact ⟨h1.symm, h2.symm⟩
    | ok docs =>
      rw [hr] at hsd
      dsimp only at hsd
      cases hg : generate (build_prompt req.messages docs) with
      | error e =>
        rw [hg] at hsd
        dsimp only at hsd
        injection hsd with h1 h2
        exact ⟨h1.symm, h2.symm⟩
      | ok ans =>
        rw [hg] at hsd
        dsimp only at hsd
        exact RagResult.noConfusion hsd

/-- C3 witness: a generation failure carrying a secret-laden internal detail,
after a successful retrieval, makes the whole request fail with the opaque
500 — the retrieved context is not returned. -/
theorem pipeline_failure_opaque_witness :
    (¬ ((⟨[⟨"user", "hi"⟩]⟩ : ChatRequest).messages = [] ∨
        strip (lastContent ⟨[⟨"user", "hi"⟩]⟩) = "")) ∧
    rag_endpoint (fun _ _ => .ok ["a"]) (fun _ => .error "secret stack trace")
        ⟨[⟨"user", "hi"⟩]⟩ =
      (.error 500 "RAG processing failed",
        [.retrieveCall "hi" 2, .generateCall (build_prompt [⟨"user", "hi"⟩] ["a"])]) :=
  ⟨by decide,
    ( pipeline_failure_opaque (fun _ _ => .ok ["a"]) (fun _ => .error "secret stack trace")
        ⟨[⟨"user", "hi"⟩]⟩ (by decide)).2.1 ["a"] "secret stack trace" rfl rfl⟩

/-- Helper: the built prompt contains every history turn, labeled by its
role, in order. -/
theorem containsInOrder_build_prompt (msgs : List Message) (docs : List String) :
    ContainsInOrder (build_prompt msgs docs)
      (msgs.map fun m => m.role ++ ": " ++ m.content) := by
  unfold build_prompt
  exact containsInOrder_append_right (containsInOrder_append_right
    (containsInOrder_append_right (containsInOrder_append_left
      (containsInOrder_intercalate "\n" (msgs.map fun m => m.role ++ ": " ++ m.content)))))

/-- C4: the prompt is a deterministic pure function of the history and the
retrieved texts; it renders a history section containing every turn labeled
by its role in order, then the delimiter separating history from context,
then every retrieved passage verbatim in retrieval order separated by a line
boundary, then the instruction to answer concisely from history and context
(`src/main.py` lines 64-65). -/
theorem prompt_structure (msgs : List Message) (docs : List String) :
    ∃ hist ctx,
      build_prompt msgs docs =
        "History:\n" ++ hist ++ "\nContext: " ++ ctx ++
          "\nAssistant: Respond concisely based on the history and context:" ∧
      ContainsInOrder hist (msgs.map fun m => m.role ++ ": " ++ m.content) ∧
      ctx = String.intercalate "\n" docs ∧
      ContainsInOrder ctx docs := by
  refine ⟨String.intercalate "\n" (msgs.map fun m => m.role ++ ": " ++ m.content),
    String.intercalate "\n" docs, ?_, containsInOrder_intercalate _ _, rfl,
    containsInOrder_intercalate _ _⟩
  rfl

/-- C5: on a non-empty corpus, the modelled `VectorIndex.search` returns
`min k n` results (so exactly `k` when `k ≤ n`, clamped when the corpus is
smaller), ordered by non-increasing similarity with ties broken by lower
corpus index, with no passage identity appearing twice. -/
theorem search_topk_sorted (corpus : List (List ℚ)) (q : List ℚ) (k : Nat)
    (hne : corpus ≠ []) :
    (search corpus q k).length = min k corpus.length ∧
    (k ≤ corpus.length → (search corpus q k).length = k) ∧
    List.Pairwise (fun a b : Nat × ℚ => b.2 < a.2 ∨ (a.2 = b.2 ∧ a.1 < b.1))
      (search corpus q k) ∧
    ((search corpus q k).map Prod.fst).Nodup := by
  have _hne := hne
  have hlen : (List.insertionSort simRank (corpus.enum.map fun p => (p.1, sim q p.2))).length
      = corpus.length := by
    rw [(List.perm_insertionSort simRank _).length_eq, List.length_map, List.enum_length]
  have hmapfst : ((List.insertionSort simRank
        (corpus.enum.map fun p => (p.1, sim q p.2))).map Prod.fst).Nodup := by
    have hp := (List.perm_insertionSort simRank
      (corpus.enum.map fun p => (p.1, sim q p.2))).map Prod.fst
    refine hp.nodup_iff.mpr ?_
    have hfsteq : ((corpus.enum.map fun p => (p.1, sim q p.2)).map Prod.fst)
        = List.range corpus.length := by
      rw [List.map_map]
      exact List.enum_map_fst corpus
    rw [hfsteq]
    exact List.nodup_range corpus.length
  have hnodupTake : ((search corpus q k).map Prod.fst).Nodup := by
    refine List.Nodup.sublist ?_ hmapfst
    exact List.Sublist.map Prod.fst (List.take_sublist _ _)
  have hsorted : List.Pairwise simRank (search corpus q k) := by
    show List.Pairwise simRank ((List.insertionSort simRank
      (corpus.enum.map fun p => (p.1, sim q p.2))).take k)
    exact List.Pairwise.sublist (List.take_sublist _ _)
      (List.sorted_insertionSort simRank _)
  have hfstne : List.Pairwise (fun a b : Nat × ℚ => a.1 ≠ b.1) (search corpus q k) := by
    have h3 := hnodupTake
    rw [List.Nodup, List.pairwise_map] at h3
    exact h3
  refine ⟨?_, ?_, ?_, hnodupTake⟩
  · show ((List.insertionSort simRank
        (corpus.enum.map fun p => (p.1, sim q p.2))).take k).length = min k corpus.length
    rw [List.length_take, hlen]
  · intro hk
    show ((List.insertionSort simRank
        (corpus.enum.map fun p => (p.1, sim q p.2))).take k).length = k
    rw [List.length_take, hlen]
    exact Nat.min_eq_left hk
  · refine (hsorted.and hfstne).imp ?_
    rintro ⟨a1, a2⟩ ⟨b1, b2⟩ ⟨hrank, hne1⟩
    rcases hrank with hlt | ⟨heq, hle⟩
    · exact Or.inl hlt
    · exact Or.inr ⟨heq, lt_of_le_of_ne hle (by simpa using hne1)⟩

/-- C5 witness: a two-passage corpus with `k = 2`. -/
theorem search_topk_sorted_witness :
    ([[(1 : ℚ)], [(0 : ℚ)]] : List (List ℚ)) ≠ [] ∧
    ((search [[(1 : ℚ)], [(0 : ℚ)]] [(0 : ℚ)] 2).length
        = min 2 ([[(1 : ℚ)], [(0 : ℚ)]] : List (List ℚ)).length ∧
      (2 ≤ ([[(1 : ℚ)], [(0 : ℚ)]] : List (List ℚ)).length →
        (search [[(1 : ℚ)], [(0 : ℚ)]] [(0 : ℚ)] 2).length = 2) ∧
      List.Pairwise (fun a b : Nat × ℚ => b.2 < a.2 ∨ (a.2 = b.2 ∧ a.1 < b.1))
        (search [[(1 : ℚ)], [(0 : ℚ)]] [(0 : ℚ)] 2) ∧
      ((search [[(1 : ℚ)], [(0 : ℚ)]] [(0 : ℚ)] 2).map Prod.fst).Nodup) :=
  ⟨by decide, search_topk_sorted [[(1 : ℚ)], [(0 : ℚ)]] [(0 : ℚ)] 2 (by decide)⟩

/-- C6: on every request passing validation, the retrieval step is invoked
first, with the latest turn's content as the query and the fixed `k = 2`
(`src/main.py` line 59); and with retrieval implemented by the modelled
vector-index search, every successful response carries at most 2 sources. -/
theorem retrieval_uses_last_and_k2
    (retrieve : String → Nat → Except String (List String))
    (generate : String → Except String String) (req : ChatRequest)
    (h : ¬ (req.messages = [] ∨ strip (lastContent req) = "")) :
    (rag_endpoint retrieve generate req).2.head? =
      some (.retrieveCall (lastContent req) 2) ∧
    ∀ (corpus : List (String × List ℚ)) (embed : String → List ℚ)
      (gen : String → Except String String) (resp : AnswerResponse)
      (trace : List CallEvent),
      rag_endpoint (faissRetrieve corpus embed) gen req = (.ok resp, trace) →
      resp.sources.length ≤ 2 := by
  constructor
  · unfold rag_endpoint
    rw [if_neg h]
    cases hr : retrieve (lastContent req) 2 with
    | error e => rfl
    | ok docs =>
      dsimp only
      cases hg : generate (build_prompt req.messages docs) with
      | error e => rfl
      | ok ans => rfl
  · intro corpus embed gen resp trace hok
    have hret := rag_ok_retrieve _ _ _ _ _ hok
    unfold faissRetrieve at hret
    injection hret with hret
    rw [← hret]
    refine le_trans (List.length_filterMap_le _ _) ?_
    exact List.length_take_le _ _

/-- C6 witness: a single-turn request. -/
theorem retrieval_uses_last_and_k2_witness :
    (¬ ((⟨[⟨"user", "What is RAG?"⟩]⟩ : ChatRequest).messages = [] ∨
        strip (lastContent ⟨[⟨"user", "What is RAG?"⟩]⟩) = "")) ∧
    ((rag_endpoint (fun _ _ => .ok ["a"]) (fun _ => .ok "x")
        ⟨[⟨"user", "What is RAG?"⟩]⟩).2.head? =
      some (.retrieveCall (lastContent ⟨[⟨"user", "What is RAG?"⟩]⟩) 2) ∧
    ∀ (corpus : List (String × List ℚ)) (embed : String → List ℚ)
      (gen : String → Except String String) (resp : AnswerResponse)
      (trace : List CallEvent),
      rag_endpoint (faissRetrieve corpus embed) gen ⟨[⟨"user", "What is RAG?"⟩]⟩ =
        (.ok resp, trace) →
      resp.sources.length ≤ 2) :=
  ⟨by decide,
    retrieval_uses_last_and_k2 (fun _ _ => .ok ["a"]) (fun _ => .ok "x")
      ⟨[⟨"user", "What is RAG?"⟩]⟩ (by decide)⟩

/-- C7: on every successful request the `answer` field is the generation
client's raw output with leading and trailing whitespace removed; a
whitespace-only generation still succeeds, with an empty answer
(`src/main.py` lines 68-71). -/
theorem answer_is_stripped_generation
    (retrieve : String → Nat → Except String (List String))
    (generate : String → Except String String) (req : ChatRequest)
    (docs : List String) (s : String)
    (h : ¬ (req.messages = [] ∨ strip (lastContent req) = ""))
    (hr : retrieve (lastContent req) 2 = .ok docs)
    (hg : generate (build_prompt req.messages docs) = .ok s) :
    (rag_endpoint retrieve generate req).1 = .ok ⟨strip s, docs⟩ ∧
    (strip s = "" → (rag_endpoint retrieve generate req).1 = .ok ⟨"", docs⟩) := by
  have hmain : (rag_endpoint retrieve generate req).1 = .ok ⟨strip s, docs⟩ := by
    unfold rag_endpoint
    rw [if_neg h, hr]
    dsimp only
    rw [hg]
  exact ⟨hmain, fun he => by rw [hmain, he]⟩

/-- C7 witness: a generation client returning only whitespace yields a
successful response with an empty answer. -/
theorem answer_is_stripped_generation_witness :
    (¬ ((⟨[⟨"user", "hi"⟩]⟩ : ChatRequest).messages = [] ∨
        strip (lastContent ⟨[⟨"user", "hi"⟩]⟩) = "")) ∧
    strip "  " = "" ∧
    ((rag_endpoint (fun _ _ => .ok ["d"]) (fun _ => .ok "  ") ⟨[⟨"user", "hi"⟩]⟩).1 =
        .ok ⟨strip "  ", ["d"]⟩ ∧
      (strip "  " = "" →
        (rag_endpoint (fun _ _ => .ok ["d"]) (fun _ => .ok "  ")
          ⟨[⟨"user", "hi"⟩]⟩).1 = .ok ⟨"", ["d"]⟩)) :=
  ⟨by decide, by decide,
    answer_is_stripped_generation (fun _ _ => .ok ["d"]) (fun _ => .ok "  ")
      ⟨[⟨"user", "hi"⟩]⟩ ["d"] "  " (by decide) rfl rfl⟩

/-- C8: with fixed deterministic stand-ins for the embedding/retrieval and
generation clients, two invocations of the handler on the identical request
yield the identical result — the same `answer`, `sources`, and call trace;
the embedded pipeline introduces no nondeterminism. -/
theorem pipeline_deterministic
    (retrieve : String → Nat → Except String (List String))
    (generate : String → Except String String) (req : ChatRequest)
    (r1 r2 : RagResult × List CallEvent)
    (h1 : rag_endpoint retrieve generate req = r1)
    (h2 : rag_endpoint retrieve generate req = r2) :
    r1 = r2 := by
  rw [← h1, ← h2]

/-- C8 witness: two invocations on a concrete request agree. -/
theorem pipeline_deterministic_witness :
    rag_endpoint (fun _ _ => .ok ["a"]) (fun _ => .ok "x") ⟨[⟨"user", "hi"⟩]⟩ =
      (.ok ⟨"x", ["a"]⟩,
        [.retrieveCall "hi" 2, .generateCall (build_prompt [⟨"user", "hi"⟩] ["a"])]) :=
  pipeline_deterministic (fun _ _ => .ok ["a"]) (fun _ => .ok "x") ⟨[⟨"user", "hi"⟩]⟩
    (rag_endpoint (fun _ _ => .ok ["a"]) (fun _ => .ok "x") ⟨[⟨"user", "hi"⟩]⟩)
    (.ok ⟨"x", ["a"]⟩,
      [.retrieveCall "hi" 2, .generateCall (build_prompt [⟨"user", "hi"⟩] ["a"])])
    rfl (by rfl)

/-- C10: the empty-messages / blank-last-content check is the only
client-side rejection: a request whose `messages` are non-empty with
non-blank last content is never answered with HTTP 400, whatever its `role`
strings are; and the roles are rendered verbatim as turn labels into any
prompt handed to generation (`src/main.py` lines 28-30, 49-51, 64). -/
theorem no_role_validation
    (retrieve : String → Nat → Except String (List String))
    (generate : String → Except String String) (req : ChatRequest)
    (h : ¬ (req.messages = [] ∨ strip (lastContent req) = "")) :
    (∀ d, (rag_endpoint retrieve generate req).1 ≠ .error 400 d) ∧
    (∀ p, CallEvent.generateCall p ∈ (rag_endpoint retrieve generate req).2 →
      ContainsInOrder p (req.messages.map fun m => m.role ++ ": " ++ m.content)) := by
  unfold rag_endpoint
  rw [if_neg h]
  cases hr : retrieve (lastContent req) 2 with
  | error e =>
    refine ⟨?_, ?_⟩
    · intro d hc
      injection hc with hs hd
      exact absurd hs (by decide)
    · intro p hp
      simp at hp
  | ok docs =>
    dsimp only
    cases hg : generate (build_prompt req.messages docs) with
    | error e =>
      refine ⟨?_, ?_⟩
      · intro d hc
        injection hc with hs hd
        exact absurd hs (by decide)
      · intro p hp
        simp at hp
        rw [hp]
        exact containsInOrder_build_prompt req.messages docs
    | ok ans =>
      refine ⟨?_, ?_⟩
      · intro d hc
        exact RagResult.noConfusion hc
      · intro p hp
        simp at hp
        rw [hp]
        exact containsInOrder_build_prompt req.messages docs

/-- C10 witness: a request whose role is not in the set "user"/"assistant" is
still processed, and its role string reaches the prompt verbatim. -/
theorem no_role_validation_witness :
    (¬ ((⟨[⟨"system-override", "hi"⟩]⟩ : ChatRequest).messages = [] ∨
        strip (lastContent ⟨[⟨"system-override", "hi"⟩]⟩) = "")) ∧
    ((∀ d, (rag_endpoint (fun _ _ => .ok ["a"]) (fun _ => .ok "x")
        ⟨[⟨"system-override", "hi"⟩]⟩).1 ≠ .error 400 d) ∧
      (∀ p, CallEvent.generateCall p ∈ (rag_endpoint (fun _ _ => .ok ["a"])
          (fun _ => .ok "x") ⟨[⟨"system-override", "hi"⟩]⟩).2 →
        ContainsInOrder p (([⟨"system-override", "hi"⟩] : List Message).map
          fun m => m.role ++ ": " ++ m.content))) :=
  ⟨by decide,
    no_role_validation (fun _ _ => .ok ["a"]) (fun _ => .ok "x")
      ⟨[⟨"system-override", "hi"⟩]⟩ (by decide)⟩

end Rag
